import Mathlib
set_option maxRecDepth 8192

/-!
Shallow embedding of the BigQuery destination connector's command-building
pipeline (`mage_integrations/destinations/bigquery/__init__.py`), together
with theorems settling the specification's claims about it.

The BigQuery class methods (`build_create_table_commands`,
`build_alter_table_commands`, `build_insert_commands`,
`calculate_records_inserted_and_updated`) are translated directly from the
source.  Helper functions the source imports from sibling modules that are
not part of the provided sources (`build_create_table_command`,
`build_alter_table_command`, `build_insert_command`, `column_type_mapping`,
`clean_column_name`, `convert_column_type`, `convert_column_to_type`,
`UNIQUE_CONFLICT_METHOD_UPDATE`) are modelled from the specification and
marked as such in their doc comments.
-/

/-- Abstract column kind of a schema property: primitive kinds plus arrays
with a nested item kind, mirroring the spec's data model for Schema. -/
inductive ColumnKind where
  | string
  | number
  | integer
  | boolean
  | array (item : ColumnKind)
  | object
  deriving DecidableEq, Repr

/-- A schema is an ordered mapping from column name to column kind
(`schema['properties']` in the source, whose dict preserves insertion
order). -/
abbrev Schema := List (String × ColumnKind)

/-- A scalar value appearing in a record.  Python's `type(x) is int` check in
the source distinguishes ints from bools, so booleans are a separate
constructor. -/
inductive Value where
  | int (n : Int)
  | str (s : String)
  | bool (b : Bool)
  | null
  deriving DecidableEq, Repr

/-- A record is a mapping from column name to value. -/
abbrev Record := List (String × Value)

/-- Looking a column up in a record; a missing column reads as null. -/
def record_field (r : Record) (col : String) : Value :=
  (r.lookup col).getD Value.null

/-- Python renders `None` as the string "None" inside an f-string; the source
interpolates `database_name` (possibly None) directly into table names. -/
def pyOptStr : Option String → String
  | none => "None"
  | some s => s

/-- Python truthiness of an optional list (None and the empty list are
falsy), used by the source's `if unique_constraints and
unique_conflict_method:`. -/
def truthyOptList (o : Option (List String)) : Bool :=
  match o with
  | none => false
  | some l => !l.isEmpty

/-- Python truthiness of an optional string (None and the empty string are
falsy). -/
def truthyOptStr (o : Option String) : Bool :=
  match o with
  | none => false
  | some s => !(s == "")

/-- Modelled from the spec: `clean_column_name` from
`mage_integrations/destinations/utils.py` is not among the provided sources.
Spec section 4.2: the sanitizer deterministically turns an arbitrary
identifier into a dialect-safe one (replacing disallowed characters,
case-folding) and is idempotent.  We model it as lowercasing alphanumeric
characters and replacing every other character with an underscore. -/
def clean_column_name (s : String) : String :=
  ⟨s.data.map (fun c => if c.isAlphanum || c == '_' then c.toLower else '_')⟩

/-- Modelled from the spec: `UNIQUE_CONFLICT_METHOD_UPDATE` from
`mage_integrations/destinations/constants.py` is not among the provided
sources.  Spec section 3 names the UPDATE member of the
ConflictResolutionPolicy enumeration; the constant is its string value. -/
def UNIQUE_CONFLICT_METHOD_UPDATE : String := "update"

/-- Modelled from the spec: `convert_column_type` from
`mage_integrations/destinations/bigquery/utils.py` is not among the provided
sources.  Spec section 4.1: a primitive-to-SQL-type table parameterised by
the dialect's number and string type names (the source passes
number_type='FLOAT64', string_type='STRING'). -/
def convert_column_type (numberType stringType : String) : ColumnKind → String
  | ColumnKind.string => stringType
  | ColumnKind.number => numberType
  | ColumnKind.integer => "INT64"
  | ColumnKind.boolean => "BOOLEAN"
  | ColumnKind.array _ => "ARRAY"
  | ColumnKind.object => stringType

/-- Modelled from the spec: `column_type_mapping` from
`mage_integrations/destinations/sql/utils.py` is not among the provided
sources.  Spec section 4.1: maps each schema column to a SQL type string;
array columns go through the dialect's item-type rule (applied to the
converted item type), all other kinds through the primitive conversion. -/
def column_type_mapping (schema : Schema)
    (convert : String → String → ColumnKind → String)
    (itemTypeFunc : String → String)
    (numberType stringType : String) (col : String) : String :=
  match schema.lookup col with
  | some (ColumnKind.array item) => itemTypeFunc (convert numberType stringType item)
  | some k => convert numberType stringType k
  | none => stringType

/-- The item-type conversion function the BigQuery source passes to
`column_type_mapping` at all three call sites (source lines 41, 97, 123):
`lambda item_type_converted: 'ARRAY'`. -/
def bigquery_array_item_type (item_type_converted : String) : String := "ARRAY"

/-- The `column_type_mapping(schema, convert_column_type, lambda ...: 'ARRAY',
number_type='FLOAT64', string_type='STRING')` call repeated at source lines
38-44, 94-100 and 120-126. -/
def bigquery_column_type_mapping (schema : Schema) : String → String :=
  column_type_mapping schema convert_column_type bigquery_array_item_type
    "FLOAT64" "STRING"

/-- Modelled from the spec: `convert_column_to_type` from
`mage_integrations/destinations/bigquery/utils.py` is not among the provided
sources.  Spec section 4.5: serialize each scalar as a SQL literal — numeric
literal, quoted string literal, NULL for missing/None. -/
def convert_column_to_type : Value → String
  | Value.int n => toString n
  | Value.str s => "\x27" ++ s ++ "\x27"
  | Value.bool b => if b then "TRUE" else "FALSE"
  | Value.null => "NULL"

/-- Modelled from the spec: `build_create_table_command` from
`mage_integrations/destinations/sql/utils.py` is not among the provided
sources.  Spec section 4.3: exactly one CREATE TABLE statement listing every
column with its mapped type in schema iteration order; when no unique
constraints are passed, no constraint clause is emitted. -/
def build_create_table_command (mapping : String → String)
    (columns : List String) (full_table_name : String)
    (unique_constraints : Option (List String)) : String :=
  let cols := String.intercalate ", "
    (columns.map (fun c => clean_column_name c ++ " " ++ mapping c))
  let constraint_clause :=
    match unique_constraints with
    | none => ""
    | some cs =>
        ", UNIQUE(" ++
          String.intercalate ", " (cs.map clean_column_name) ++ ")"
  "CREATE TABLE " ++ full_table_name ++ " (" ++ cols ++ constraint_clause ++ ")"

/-- Modelled from the spec: `build_alter_table_command` from
`mage_integrations/destinations/sql/utils.py` is not among the provided
sources.  Spec section 4.4: exactly one ALTER TABLE ... ADD COLUMN statement
covering all new columns with their mapped types. -/
def build_alter_table_command (mapping : String → String)
    (columns : List String) (full_table_name : String) : String :=
  "ALTER TABLE " ++ full_table_name ++ " " ++
    String.intercalate ", "
      (columns.map (fun c => "ADD COLUMN " ++ clean_column_name c ++ " " ++ mapping c))

/-- Modelled from the spec: `build_insert_command` from
`mage_integrations/destinations/sql/utils.py` is not among the provided
sources.  Spec sections 4.2 and 4.5: returns the sanitized column list and,
per record, one literal tuple string with fields in schema column order
(missing fields render as NULL). -/
def build_insert_command (columns : List String) (records : List Record) :
    List String × List String :=
  (columns.map clean_column_name,
   records.map (fun r =>
     "(" ++
       String.intercalate ", "
         (columns.map (fun c => convert_column_to_type (record_field r c))) ++
     ")"))

/-- `BigQuery.build_create_table_commands` (source lines 29-66).
`partition_keys` stands for the `self.partition_keys` configuration dict of
the base class (per-stream partition key lists); `stream` is Option String
because `build_insert_commands` calls this method with `stream=None`. -/
def build_create_table_commands
    (partition_keys : List (String × List String))
    (schema : Schema) (schema_name : String) (stream : Option String)
    (table_name : String) (database_name : Option String)
    (unique_constraints : Option (List String)) : List String :=
  let type_mapping := bigquery_column_type_mapping schema
  let create_table_command :=
    build_create_table_command type_mapping (schema.map Prod.fst)
      (schema_name ++ "." ++ table_name) none
  let stream_partition_keys :=
    match stream with
    | none => []
    | some s => (partition_keys.lookup s).getD []
  let create_table_command :=
    match stream_partition_keys with
    | [] => create_table_command
    | partition_col :: _ =>
        "\n" ++ create_table_command ++ "\nPARTITION BY\n  DATE(" ++
          partition_col ++ ")\n            "
  [create_table_command]

/-- `BigQuery.build_alter_table_commands` (source lines 68-104).  The live
column snapshot returned by the INFORMATION_SCHEMA.COLUMNS metadata query
(rows of column_name, data_type) is taken as the `results` parameter, since
the query itself is I/O through the connection collaborator. -/
def build_alter_table_commands (schema : Schema)
    (schema_name table_name : String)
    (results : List (String × String)) : List String :=
  let current_columns := results.map Prod.fst
  let schema_columns := schema.map Prod.fst
  let new_columns := schema_columns.filter (fun c => !current_columns.contains c)
  if new_columns.isEmpty then []
  else
    [build_alter_table_command (bigquery_column_type_mapping schema)
      new_columns (schema_name ++ "." ++ table_name)]

/-- `BigQuery.build_insert_commands` (source lines 106-179). -/
def build_insert_commands
    (partition_keys : List (String × List String))
    (records : List Record) (schema : Schema)
    (schema_name table_name : String)
    (database_name : Option String)
    (unique_conflict_method : Option String)
    (unique_constraints : Option (List String)) : List String :=
  let full_table_name :=
    pyOptStr database_name ++ "." ++ schema_name ++ "." ++ table_name
  let full_table_name_temp :=
    pyOptStr database_name ++ "." ++ schema_name ++ ".temp_" ++ table_name
  let columns := schema.map Prod.fst
  let insert_pair := build_insert_command columns records
  let insert_columns := String.intercalate ", " insert_pair.1
  let insert_values := String.intercalate ", " insert_pair.2
  if truthyOptList unique_constraints && truthyOptStr unique_conflict_method then
    let uc := (unique_constraints.getD []).map clean_column_name
    let columns_cleaned := columns.map clean_column_name
    let drop_temp_table_command :=
      "DROP TABLE IF EXISTS " ++ full_table_name_temp
    let commands :=
      [drop_temp_table_command] ++
      build_create_table_commands partition_keys schema schema_name none
        ("temp_" ++ table_name) database_name unique_constraints ++
      ["INSERT INTO " ++ full_table_name_temp ++ " (" ++ insert_columns ++
        ") VALUES " ++ insert_values]
    let merge_commands :=
      ["MERGE INTO " ++ full_table_name ++ " AS a",
       "USING (SELECT * FROM " ++ full_table_name_temp ++ ") AS b",
       "ON " ++ String.intercalate " AND "
         (uc.map (fun col => "a." ++ col ++ " = b." ++ col))]
    let merge_commands :=
      if unique_conflict_method == some UNIQUE_CONFLICT_METHOD_UPDATE then
        merge_commands ++
          ["WHEN MATCHED THEN UPDATE SET " ++
            String.intercalate ", "
              (columns_cleaned.map (fun col => "a." ++ col ++ " = b." ++ col))]
      else merge_commands
    let merge_values :=
      "(" ++ String.intercalate ", "
        (columns_cleaned.map (fun col => "b." ++ col)) ++ ")"
    let merge_commands :=
      merge_commands ++
        ["WHEN NOT MATCHED THEN INSERT (" ++ insert_columns ++ ") VALUES " ++
          merge_values]
    let merge_command := String.intercalate "\n" merge_commands
    commands ++ [merge_command, drop_temp_table_command]
  else
    ["INSERT INTO " ++ full_table_name ++ " (" ++ insert_columns ++
      ") VALUES " ++ insert_values]

/-- The body of the inner loop of `calculate_records_inserted_and_updated`
(source lines 202-204): `if len(t) >= 1 and type(t[0]) is int:
records_inserted += t[0]`.  The Python `type(t[0]) is int` check is a
head-is-int match (Python bools are excluded by `type(...) is int`, matching
the separate bool constructor). -/
def count_step (acc2 : Int) (t : List Value) : Int :=
  match t with
  | Value.int n :: _ => acc2 + n
  | _ => acc2

/-- `BigQuery.calculate_records_inserted_and_updated` (source lines 194-206):
the nested for loops accumulate via `count_step` over every row of every
result set, and the returned update count is the literal 0. -/
def calculate_records_inserted_and_updated
    (data : List (List (List Value)))
    (unique_constraints : Option (List String))
    (unique_conflict_method : Option String) : Int × Int :=
  let records_inserted :=
    data.foldl (fun acc array_of_tuples => array_of_tuples.foldl count_step acc) 0
  (records_inserted, 0)

/-! ### Spec-side renderings
Explicit string renderings of the commands the specification describes, used
as the right-hand sides of the claim theorems.  Each follows the spec's
description of the command's shape (section 4.3, 4.5, 8), so the theorems
below equate the source translation with the spec's account. -/

/-- The fully qualified target table name the spec's upsert/insert commands
reference: database.schema.table (a missing database renders as Python's
None). -/
def spec_full_table_name (db : Option String) (sch tbl : String) : String :=
  pyOptStr db ++ "." ++ sch ++ "." ++ tbl

/-- The fully qualified staging table name: a fixed temp_ prefix over the
target table name, qualified by database and schema. -/
def spec_full_temp_table_name (db : Option String) (sch tbl : String) : String :=
  pyOptStr db ++ "." ++ sch ++ ".temp_" ++ tbl

/-- The sanitized, comma-separated column list of a schema, in schema
iteration order. -/
def spec_insert_columns (schema : Schema) : String :=
  String.intercalate ", " ((schema.map Prod.fst).map clean_column_name)

/-- One literal VALUES tuple for a record, fields in schema column order. -/
def spec_record_tuple (schema : Schema) (r : Record) : String :=
  "(" ++
    String.intercalate ", "
      ((schema.map Prod.fst).map (fun c => convert_column_to_type (record_field r c))) ++
  ")"

/-- The VALUES clause of an insert: one tuple per record of the batch. -/
def spec_insert_values (schema : Schema) (records : List Record) : String :=
  String.intercalate ", " (records.map (fun r => spec_record_tuple schema r))

/-- The plain-insert command covering a whole batch (spec section 4.5,
plain-insert path). -/
def spec_plain_insert_command (records : List Record) (schema : Schema)
    (db : Option String) (sch tbl : String) : String :=
  "INSERT INTO " ++ spec_full_table_name db sch tbl ++ " (" ++
    spec_insert_columns schema ++ ") VALUES " ++ spec_insert_values schema records

/-- The idempotent staging-table drop command (spec section 4.5, upsert steps
1 and 5). -/
def spec_drop_staging_command (db : Option String) (sch tbl : String) : String :=
  "DROP TABLE IF EXISTS " ++ spec_full_temp_table_name db sch tbl

/-- The staging-table create command (spec section 4.5, upsert step 2): the
create-table logic of section 4.3 applied to the temp_-prefixed table, with
no unique constraints propagated.  Note the table name is qualified by
schema and table only. -/
def spec_staging_create_command (schema : Schema) (sch tbl : String) : String :=
  build_create_table_command (bigquery_column_type_mapping schema)
    (schema.map Prod.fst) (sch ++ "." ++ ("temp_" ++ tbl)) none

/-- The staging-table populate command (spec section 4.5, upsert step 3). -/
def spec_staging_insert_command (records : List Record) (schema : Schema)
    (db : Option String) (sch tbl : String) : String :=
  "INSERT INTO " ++ spec_full_temp_table_name db sch tbl ++ " (" ++
    spec_insert_columns schema ++ ") VALUES " ++ spec_insert_values schema records

/-- The merge ON clause: AND-ed equality over all sanitized
unique-constraint columns (spec section 4.5, upsert step 4). -/
def spec_on_clause (constraints : List String) : String :=
  String.intercalate " AND "
    ((constraints.map clean_column_name).map (fun col => "a." ++ col ++ " = b." ++ col))

/-- The matched-update line the source emits under the UPDATE policy: the
SET clause covers every sanitized schema column (key columns included). -/
def spec_matched_update_line (schema : Schema) : String :=
  "WHEN MATCHED THEN UPDATE SET " ++
    String.intercalate ", "
      (((schema.map Prod.fst).map clean_column_name).map
        (fun col => "a." ++ col ++ " = b." ++ col))

/-- The matched-update line as the claim words it: the SET clause covers
every non-key column, that is, every schema column not in the
unique-constraint set.  Used to compare the claim's account against the
source's. -/
def spec_claimed_matched_update_line (schema : Schema)
    (constraints : List String) : String :=
  "WHEN MATCHED THEN UPDATE SET " ++
    String.intercalate ", "
      ((((schema.map Prod.fst).filter (fun c => !constraints.contains c)).map
          clean_column_name).map
        (fun col => "a." ++ col ++ " = b." ++ col))

/-- The not-matched line: insert the staging row's full column set (spec
section 4.5, upsert step 4). -/
def spec_not_matched_line (schema : Schema) : String :=
  "WHEN NOT MATCHED THEN INSERT (" ++ spec_insert_columns schema ++
    ") VALUES " ++
    ("(" ++
      String.intercalate ", "
        (((schema.map Prod.fst).map clean_column_name).map (fun col => "b." ++ col)) ++
      ")")

/-- The whole merge command: match on all constraint columns; the
matched-update line appears exactly when the policy is UPDATE; always insert
the full column set on no match. -/
def spec_merge_command (schema : Schema) (db : Option String)
    (sch tbl : String) (constraints : List String) (withUpdate : Bool) : String :=
  String.intercalate "\n"
    (["MERGE INTO " ++ spec_full_table_name db sch tbl ++ " AS a",
      "USING (SELECT * FROM " ++ spec_full_temp_table_name db sch tbl ++ ") AS b",
      "ON " ++ spec_on_clause constraints] ++
     (if withUpdate then [spec_matched_update_line schema] else []) ++
     [spec_not_matched_line schema])

/-- The create-table command as the spec describes it (sections 4.3, 8):
every schema column with its mapped type in schema iteration order, no
unique-constraint clause, and a PARTITION BY clause over the first
configured partition key of the stream when one exists. -/
def spec_create_table_rendered (partition_keys : List (String × List String))
    (schema : Schema) (schema_name : String) (stream : Option String)
    (table_name : String) : String :=
  let base := "CREATE TABLE " ++ schema_name ++ "." ++ table_name ++ " (" ++
    String.intercalate ", "
      ((schema.map Prod.fst).map
        (fun c => clean_column_name c ++ " " ++ bigquery_column_type_mapping schema c)) ++
    ")"
  match (match stream with
         | none => []
         | some s => (partition_keys.lookup s).getD []) with
  | [] => base
  | partition_col :: _ =>
      "\n" ++ base ++ "\nPARTITION BY\n  DATE(" ++ partition_col ++ ")\n            "

/-- The leading integer count of one result row: the value of its first
field when that field exists and is an integer, else 0. -/
def leading_int_count (t : List Value) : Int :=
  match t with
  | Value.int n :: _ => n
  | _ => 0

/-! ### Helper lemmas -/

/-- Folding `count_step` over a row list adds the sum of the rows' leading
integer counts to the accumulator. -/
theorem foldl_count_step (l : List (List Value)) (a : Int) :
    l.foldl count_step a = a + (l.map leading_int_count).sum := by
  induction l generalizing a with
  | nil => simp
  | cons t ts ih =>
      have ht : count_step a t = a + leading_int_count t := by
        cases t with
        | nil => simp [count_step, leading_int_count]
        | cons v vs => cases v <;> simp [count_step, leading_int_count]
      rw [List.foldl_cons, ih, ht]
      simp [List.map_cons]
      ring

/-- Folding the nested per-result-set loop over all result sets adds the sum
of all leading integer counts of the flattened rows. -/
theorem foldl_count_step_outer (data : List (List (List Value))) (a : Int) :
    data.foldl (fun acc array_of_tuples => array_of_tuples.foldl count_step acc) a =
      a + ((data.flatten).map leading_int_count).sum := by
  induction data generalizing a with
  | nil => simp
  | cons arr rest ih =>
      rw [List.foldl_cons, ih, foldl_count_step]
      simp [List.map_append]
      ring

/-- The upsert path of build_insert_commands, fully rendered: with a
non-empty unique-constraint list and a non-empty conflict method the source
emits drop-staging, create-staging, insert-into-staging, merge, drop-staging
in that order.  Shared by several claim proofs. -/
theorem upsert_commands_eq
    (partition_keys : List (String × List String)) (records : List Record)
    (schema : Schema) (schema_name table_name : String)
    (database_name : Option String) (m : String) (l : List String)
    (hl : l ≠ []) (hm : m ≠ "") :
    build_insert_commands partition_keys records schema schema_name table_name
        database_name (some m) (some l) =
      [spec_drop_staging_command database_name schema_name table_name,
       spec_staging_create_command schema schema_name table_name,
       spec_staging_insert_command records schema database_name schema_name table_name,
       spec_merge_command schema database_name schema_name table_name l
         (m == UNIQUE_CONFLICT_METHOD_UPDATE),
       spec_drop_staging_command database_name schema_name table_name] := by
  have hl' : l.isEmpty = false := by
    cases l with
    | nil => exact absurd rfl hl
    | cons a as => rfl
  have hm' : (m == "") = false := beq_eq_false_iff_ne.mpr hm
  have hopt : (some m == some UNIQUE_CONFLICT_METHOD_UPDATE) =
      (m == UNIQUE_CONFLICT_METHOD_UPDATE) := rfl
  cases hmd : (m == UNIQUE_CONFLICT_METHOD_UPDATE) with
  | true =>
      simp [build_insert_commands, truthyOptList, truthyOptStr, hl', hm', hopt, hmd,
        spec_drop_staging_command, spec_staging_create_command,
        spec_staging_insert_command, spec_merge_command,
        spec_full_table_name, spec_full_temp_table_name,
        spec_insert_columns, spec_insert_values, spec_record_tuple,
        spec_on_clause, spec_matched_update_line, spec_not_matched_line,
        build_create_table_commands, build_insert_command,
        build_create_table_command]
  | false =>
      simp [build_insert_commands, truthyOptList, truthyOptStr, hl', hm', hopt, hmd,
        spec_drop_staging_command, spec_staging_create_command,
        spec_staging_insert_command, spec_merge_command,
        spec_full_table_name, spec_full_temp_table_name,
        spec_insert_columns, spec_insert_values, spec_record_tuple,
        spec_on_clause, spec_matched_update_line, spec_not_matched_line,
        build_create_table_commands, build_insert_command,
        build_create_table_command]

/-! ### Claim theorems -/

/-- C1: with a non-empty unique-constraint list and a supplied (non-empty)
conflict method, build_insert_commands returns exactly 5 commands in order
drop-staging, create-staging, insert-into-staging, merge, drop-staging (the
first and last being the same idempotent DROP TABLE IF EXISTS command); and
when the method is not the UPDATE constant, the merge command consists of
exactly the MERGE INTO, USING, ON and WHEN NOT MATCHED lines, i.e. it
contains no matched-update clause. -/
theorem c1_upsert_five_ordered_commands
    (partition_keys : List (String × List String)) (records : List Record)
    (schema : Schema) (schema_name table_name : String)
    (database_name : Option String) (m : String) (l : List String)
    (hl : l ≠ []) (hm : m ≠ "") :
    build_insert_commands partition_keys records schema schema_name table_name
        database_name (some m) (some l) =
      [spec_drop_staging_command database_name schema_name table_name,
       spec_staging_create_command schema schema_name table_name,
       spec_staging_insert_command records schema database_name schema_name table_name,
       spec_merge_command schema database_name schema_name table_name l
         (m == UNIQUE_CONFLICT_METHOD_UPDATE),
       spec_drop_staging_command database_name schema_name table_name] ∧
    (m ≠ UNIQUE_CONFLICT_METHOD_UPDATE →
      spec_merge_command schema database_name schema_name table_name l
          (m == UNIQUE_CONFLICT_METHOD_UPDATE) =
        String.intercalate "\n"
          ["MERGE INTO " ++ spec_full_table_name database_name schema_name table_name ++ " AS a",
           "USING (SELECT * FROM " ++
             spec_full_temp_table_name database_name schema_name table_name ++ ") AS b",
           "ON " ++ spec_on_clause l,
           spec_not_matched_line schema]) := by
  refine ⟨upsert_commands_eq partition_keys records schema schema_name table_name
    database_name m l hl hm, ?_⟩
  intro hne
  rw [beq_eq_false_iff_ne.mpr hne]
  simp [spec_merge_command]

/-- C2 (amended): under the UPDATE policy the merge command matches target
to staging rows on the AND-ed equality of all sanitized unique-constraint
columns, its WHEN MATCHED clause sets every sanitized schema column (key
columns included, not only the non-key ones) from the staging row, and its
WHEN NOT MATCHED clause inserts the staging row's full column set. -/
theorem c2_merge_clause_structure
    (partition_keys : List (String × List String)) (records : List Record)
    (schema : Schema) (schema_name table_name : String)
    (database_name : Option String) (l : List String) (hl : l ≠ []) :
    build_insert_commands partition_keys records schema schema_name table_name
        database_name (some UNIQUE_CONFLICT_METHOD_UPDATE) (some l) =
      [spec_drop_staging_command database_name schema_name table_name,
       spec_staging_create_command schema schema_name table_name,
       spec_staging_insert_command records schema database_name schema_name table_name,
       String.intercalate "\n"
         ["MERGE INTO " ++ spec_full_table_name database_name schema_name table_name ++ " AS a",
          "USING (SELECT * FROM " ++
            spec_full_temp_table_name database_name schema_name table_name ++ ") AS b",
          "ON " ++ spec_on_clause l,
          spec_matched_update_line schema,
          spec_not_matched_line schema],
       spec_drop_staging_command database_name schema_name table_name] := by
  rw [upsert_commands_eq partition_keys records schema schema_name table_name
    database_name UNIQUE_CONFLICT_METHOD_UPDATE l hl (by decide)]
  have hbeq : (UNIQUE_CONFLICT_METHOD_UPDATE == UNIQUE_CONFLICT_METHOD_UPDATE) = true := by
    decide
  rw [hbeq]
  simp [spec_merge_command]

/-- C2 counterexample: at schema (id integer, name string) with unique
constraint id and the UPDATE policy, the generated merge command is not the
one whose WHEN MATCHED clause sets only the non-key columns (here only
name): the source's SET clause also covers the key column id. -/
theorem c2_merge_counterexample :
    ¬ ((build_insert_commands [] []
          [("id", ColumnKind.integer), ("name", ColumnKind.string)]
          "sch" "tbl" (some "db") (some "update") (some ["id"]))[3]? =
        some (String.intercalate "\n"
          ["MERGE INTO db.sch.tbl AS a",
           "USING (SELECT * FROM db.sch.temp_tbl) AS b",
           "ON a.id = b.id",
           spec_claimed_matched_update_line
             [("id", ColumnKind.integer), ("name", ColumnKind.string)] ["id"],
           "WHEN NOT MATCHED THEN INSERT (id, name) VALUES (b.id, b.name)"])) := by
  decide

/-- C10: any non-empty conflict method other than the UPDATE constant is
accepted and treated exactly like IGNORE: the call produces the usual
5-command upsert sequence and the merge command consists of exactly the
MERGE INTO, USING, ON and WHEN NOT MATCHED lines, with no matched-update
clause. -/
theorem c10_unrecognized_method_acts_as_ignore
    (partition_keys : List (String × List String)) (records : List Record)
    (schema : Schema) (schema_name table_name : String)
    (database_name : Option String) (m : String) (l : List String)
    (hl : l ≠ []) (hm : m ≠ "") (hmu : m ≠ UNIQUE_CONFLICT_METHOD_UPDATE) :
    build_insert_commands partition_keys records schema schema_name table_name
        database_name (some m) (some l) =
      [spec_drop_staging_command database_name schema_name table_name,
       spec_staging_create_command schema schema_name table_name,
       spec_staging_insert_command records schema database_name schema_name table_name,
       String.intercalate "\n"
         ["MERGE INTO " ++ spec_full_table_name database_name schema_name table_name ++ " AS a",
          "USING (SELECT * FROM " ++
            spec_full_temp_table_name database_name schema_name table_name ++ ") AS b",
          "ON " ++ spec_on_clause l,
          spec_not_matched_line schema],
       spec_drop_staging_command database_name schema_name table_name] := by
  rw [upsert_commands_eq partition_keys records schema schema_name table_name
    database_name m l hl hm, beq_eq_false_iff_ne.mpr hmu]
  simp [spec_merge_command]

/-- C9: in the upsert sequence with a database name supplied, the staging
CREATE command (second command) builds its table name from schema and table
only (schema.temp_table), while the DROP, INSERT and MERGE commands qualify
the staging table as database.schema.temp_table; the created name and the
dropped/populated name differ as strings. -/
theorem c9_staging_name_qualification_mismatch
    (partition_keys : List (String × List String)) (records : List Record)
    (schema : Schema) (schema_name table_name : String)
    (d : String) (m : String) (l : List String)
    (hl : l ≠ []) (hm : m ≠ "") :
    build_insert_commands partition_keys records schema schema_name table_name
        (some d) (some m) (some l) =
      [spec_drop_staging_command (some d) schema_name table_name,
       build_create_table_command (bigquery_column_type_mapping schema)
         (schema.map Prod.fst) (schema_name ++ "." ++ ("temp_" ++ table_name)) none,
       spec_staging_insert_command records schema (some d) schema_name table_name,
       spec_merge_command schema (some d) schema_name table_name l
         (m == UNIQUE_CONFLICT_METHOD_UPDATE),
       spec_drop_staging_command (some d) schema_name table_name] ∧
    schema_name ++ "." ++ ("temp_" ++ table_name) ≠
      spec_full_temp_table_name (some d) schema_name table_name := by
  constructor
  · rw [upsert_commands_eq partition_keys records schema schema_name table_name
      (some d) m l hl hm]
    rfl
  · intro hEq
    have hlen := congrArg String.length hEq
    have h1 : ("." : String).length = 1 := rfl
    have h2 : ("temp_" : String).length = 5 := rfl
    have h3 : (".temp_" : String).length = 6 := rfl
    simp [spec_full_temp_table_name, pyOptStr, String.length_append, h1, h2, h3] at hlen
    omega

/-- C3: the alter builder returns the empty command list iff every schema
column is among the live columns; otherwise it returns exactly one ALTER
TABLE command adding precisely the schema columns missing from the live
snapshot, in schema iteration order (the command mentions only ADD COLUMN
clauses for the new columns, so no existing column is removed or
retyped). -/
theorem c3_alter_table_additive_diff (schema : Schema)
    (schema_name table_name : String) (results : List (String × String)) :
    (build_alter_table_commands schema schema_name table_name results = [] ↔
      schema.map Prod.fst ⊆ results.map Prod.fst) ∧
    (¬ schema.map Prod.fst ⊆ results.map Prod.fst →
      build_alter_table_commands schema schema_name table_name results =
        [build_alter_table_command (bigquery_column_type_mapping schema)
          ((schema.map Prod.fst).filter (fun c => !(results.map Prod.fst).contains c))
          (schema_name ++ "." ++ table_name)]) := by
  have key : ((schema.map Prod.fst).filter
      (fun c => !(results.map Prod.fst).contains c) = []) ↔
      schema.map Prod.fst ⊆ results.map Prod.fst := by
    simp [List.filter_eq_nil_iff, List.subset_def, List.elem_iff]
  constructor
  · simp only [build_alter_table_commands, List.isEmpty_iff]
    split
    next h => exact iff_of_true rfl (key.mp h)
    next h => exact iff_of_false (by simp) (fun hsub => h (key.mpr hsub))
  · intro hsub
    rw [← key] at hsub
    simp only [build_alter_table_commands, List.isEmpty_iff]
    split
    next h => exact absurd h hsub
    next h => rfl

/-- C4: when unique constraints or the conflict method are absent (Python
falsy), build_insert_commands returns exactly one INSERT command into the
fully qualified target table whose VALUES clause is the comma-joined list of
one literal tuple per record, each tuple's fields in schema column order;
the tuple list has exactly as many entries as the batch has records. -/
theorem c4_plain_insert_single_command
    (partition_keys : List (String × List String)) (records : List Record)
    (schema : Schema) (schema_name table_name : String)
    (database_name : Option String) (unique_conflict_method : Option String)
    (unique_constraints : Option (List String))
    (h : truthyOptList unique_constraints = false ∨
      truthyOptStr unique_conflict_method = false) :
    build_insert_commands partition_keys records schema schema_name table_name
        database_name unique_conflict_method unique_constraints =
      [spec_plain_insert_command records schema database_name schema_name table_name] ∧
    (records.map (fun r => spec_record_tuple schema r)).length = records.length := by
  have hcond : (truthyOptList unique_constraints &&
      truthyOptStr unique_conflict_method) = false := by
    rcases h with h | h <;> simp [h]
  constructor
  · simp [build_insert_commands, hcond, spec_plain_insert_command,
      spec_full_table_name, spec_insert_columns, spec_insert_values,
      spec_record_tuple, build_insert_command]
  · simp

/-- C5: build_create_table_commands returns exactly one CREATE TABLE command
listing every schema column with its mapped type in schema iteration order
and with no unique-constraint clause (the source passes None), and appends a
PARTITION BY clause over the first configured partition key exactly when the
stream has a non-empty partition key list. -/
theorem c5_create_table_single_command
    (partition_keys : List (String × List String)) (schema : Schema)
    (schema_name : String) (stream : Option String) (table_name : String)
    (database_name : Option String) (unique_constraints : Option (List String)) :
    build_create_table_commands partition_keys schema schema_name stream
        table_name database_name unique_constraints =
      [spec_create_table_rendered partition_keys schema schema_name stream table_name] := by
  have hbase : build_create_table_command (bigquery_column_type_mapping schema)
      (schema.map Prod.fst) (schema_name ++ "." ++ table_name) none =
      "CREATE TABLE " ++ schema_name ++ "." ++ table_name ++ " (" ++
        String.intercalate ", "
          ((schema.map Prod.fst).map
            (fun c => clean_column_name c ++ " " ++ bigquery_column_type_mapping schema c)) ++
      ")" := by
    simp [build_create_table_command, String.append_assoc]
  cases stream with
  | none =>
      simp only [build_create_table_commands, spec_create_table_rendered]
      rw [hbase]
  | some s =>
      simp only [build_create_table_commands, spec_create_table_rendered]
      cases hk : (partition_keys.lookup s).getD [] with
      | nil => rw [hbase]
      | cons c cs => rw [hbase]

/-- C6: the item-type conversion function the BigQuery builders pass to
column_type_mapping ignores its argument and returns ARRAY for every input,
so every array-typed schema column is mapped to the generic ARRAY SQL type
regardless of its item type. -/
theorem c6_array_columns_always_array
    (schema : Schema) (col : String) (item : ColumnKind) (s : String)
    (h : schema.lookup col = some (ColumnKind.array item)) :
    bigquery_array_item_type s = "ARRAY" ∧
    bigquery_column_type_mapping schema col = "ARRAY" := by
  refine ⟨rfl, ?_⟩
  simp [bigquery_column_type_mapping, column_type_mapping, h,
    bigquery_array_item_type]

/-- C7: the affected-rows calculator returns, as records inserted, the sum
over all result rows across all result sets of the row's leading field
whenever that field exists and is an integer, and always returns 0 records
updated, for every input. -/
theorem c7_records_inserted_and_zero_updated (data : List (List (List Value)))
    (unique_constraints : Option (List String))
    (unique_conflict_method : Option String) :
    calculate_records_inserted_and_updated data unique_constraints
        unique_conflict_method =
      (((data.flatten).map leading_int_count).sum, 0) := by
  simp only [calculate_records_inserted_and_updated]
  rw [foldl_count_step_outer]
  simp

/-- C8: command generation is deterministic — two invocations of each
builder with the same inputs (including the same live-column metadata
snapshot for the alter path) return identical command lists. -/
theorem c8_command_generation_deterministic
    (partition_keys : List (String × List String)) (records : List Record)
    (schema : Schema) (schema_name table_name : String)
    (stream : Option String) (database_name : Option String)
    (unique_conflict_method : Option String)
    (unique_constraints : Option (List String))
    (results : List (String × String)) :
    build_create_table_commands partition_keys schema schema_name stream
        table_name database_name unique_constraints =
      build_create_table_commands partition_keys schema schema_name stream
        table_name database_name unique_constraints ∧
    build_alter_table_commands schema schema_name table_name results =
      build_alter_table_commands schema schema_name table_name results ∧
    build_insert_commands partition_keys records schema schema_name table_name
        database_name unique_conflict_method unique_constraints =
      build_insert_commands partition_keys records schema schema_name table_name
        database_name unique_conflict_method unique_constraints :=
  ⟨rfl, rfl, rfl⟩

/-! ### Witnesses: closed instances of the hypothesis-bearing theorems -/

/-- Witness for C1 at a concrete input (constraints id, method ignore). -/
theorem c1_upsert_five_ordered_commands_witness :
    build_insert_commands [] [] [("id", ColumnKind.integer)] "s" "t"
        (some "d") (some "ignore") (some ["id"]) =
      [spec_drop_staging_command (some "d") "s" "t",
       spec_staging_create_command [("id", ColumnKind.integer)] "s" "t",
       spec_staging_insert_command [] [("id", ColumnKind.integer)] (some "d") "s" "t",
       spec_merge_command [("id", ColumnKind.integer)] (some "d") "s" "t" ["id"]
         ("ignore" == UNIQUE_CONFLICT_METHOD_UPDATE),
       spec_drop_staging_command (some "d") "s" "t"] ∧
    ("ignore" ≠ UNIQUE_CONFLICT_METHOD_UPDATE →
      spec_merge_command [("id", ColumnKind.integer)] (some "d") "s" "t" ["id"]
          ("ignore" == UNIQUE_CONFLICT_METHOD_UPDATE) =
        String.intercalate "\n"
          ["MERGE INTO " ++ spec_full_table_name (some "d") "s" "t" ++ " AS a",
           "USING (SELECT * FROM " ++
             spec_full_temp_table_name (some "d") "s" "t" ++ ") AS b",
           "ON " ++ spec_on_clause ["id"],
           spec_not_matched_line [("id", ColumnKind.integer)]]) :=
  c1_upsert_five_ordered_commands [] [] [("id", ColumnKind.integer)] "s" "t"
    (some "d") "ignore" ["id"] (by decide) (by decide)

/-- Witness for the amended C2 at a concrete input (schema id, name;
constraint id; UPDATE policy). -/
theorem c2_merge_clause_structure_witness :
    build_insert_commands [] [[("id", Value.int 1), ("name", Value.str "a")]]
        [("id", ColumnKind.integer), ("name", ColumnKind.string)] "s" "t"
        (some "d") (some UNIQUE_CONFLICT_METHOD_UPDATE) (some ["id"]) =
      [spec_drop_staging_command (some "d") "s" "t",
       spec_staging_create_command
         [("id", ColumnKind.integer), ("name", ColumnKind.string)] "s" "t",
       spec_staging_insert_command [[("id", Value.int 1), ("name", Value.str "a")]]
         [("id", ColumnKind.integer), ("name", ColumnKind.string)] (some "d") "s" "t",
       String.intercalate "\n"
         ["MERGE INTO " ++ spec_full_table_name (some "d") "s" "t" ++ " AS a",
          "USING (SELECT * FROM " ++
            spec_full_temp_table_name (some "d") "s" "t" ++ ") AS b",
          "ON " ++ spec_on_clause ["id"],
          spec_matched_update_line
            [("id", ColumnKind.integer), ("name", ColumnKind.string)],
          spec_not_matched_line
            [("id", ColumnKind.integer), ("name", ColumnKind.string)]],
       spec_drop_staging_command (some "d") "s" "t"] :=
  c2_merge_clause_structure [] [[("id", Value.int 1), ("name", Value.str "a")]]
    [("id", ColumnKind.integer), ("name", ColumnKind.string)] "s" "t"
    (some "d") ["id"] (by decide)

/-- Witness for C3 at a concrete input: live table has column id, schema has
id and name, so one ALTER command adding name is emitted. -/
theorem c3_alter_table_additive_diff_witness :
    build_alter_table_commands
        [("id", ColumnKind.integer), ("name", ColumnKind.string)]
        "s" "t" [("id", "INT64")] =
      [build_alter_table_command
        (bigquery_column_type_mapping
          [("id", ColumnKind.integer), ("name", ColumnKind.string)])
        ((([("id", ColumnKind.integer), ("name", ColumnKind.string)] : Schema).map
            Prod.fst).filter
          (fun c => !(([("id", "INT64")] : List (String × String)).map Prod.fst).contains c))
        ("s" ++ "." ++ "t")] :=
  (c3_alter_table_additive_diff
    [("id", ColumnKind.integer), ("name", ColumnKind.string)]
    "s" "t" [("id", "INT64")]).2 (by decide)

/-- Witness for C4 at a concrete input: two records, no unique
constraints. -/
theorem c4_plain_insert_single_command_witness :
    build_insert_commands []
        [[("id", Value.int 1), ("name", Value.str "a")],
         [("id", Value.int 2), ("name", Value.str "b")]]
        [("id", ColumnKind.integer), ("name", ColumnKind.string)]
        "s" "t" (some "d") none none =
      [spec_plain_insert_command
        [[("id", Value.int 1), ("name", Value.str "a")],
         [("id", Value.int 2), ("name", Value.str "b")]]
        [("id", ColumnKind.integer), ("name", ColumnKind.string)]
        (some "d") "s" "t"] ∧
    (([[("id", Value.int 1), ("name", Value.str "a")],
       [("id", Value.int 2), ("name", Value.str "b")]] : List Record).map
      (fun r => spec_record_tuple
        [("id", ColumnKind.integer), ("name", ColumnKind.string)] r)).length =
      ([[("id", Value.int 1), ("name", Value.str "a")],
        [("id", Value.int 2), ("name", Value.str "b")]] : List Record).length :=
  c4_plain_insert_single_command []
    [[("id", Value.int 1), ("name", Value.str "a")],
     [("id", Value.int 2), ("name", Value.str "b")]]
    [("id", ColumnKind.integer), ("name", ColumnKind.string)]
    "s" "t" (some "d") none none (by decide)

/-- Witness for C6 at a concrete input: a column of kind array-of-string
maps to ARRAY. -/
theorem c6_array_columns_always_array_witness :
    bigquery_array_item_type "STRING" = "ARRAY" ∧
    bigquery_column_type_mapping
        [("tags", ColumnKind.array ColumnKind.string)] "tags" = "ARRAY" :=
  c6_array_columns_always_array [("tags", ColumnKind.array ColumnKind.string)]
    "tags" ColumnKind.string "STRING" (by decide)

/-- Witness for C9 at a concrete input with database name d. -/
theorem c9_staging_name_qualification_mismatch_witness :
    build_insert_commands [] [] [("id", ColumnKind.integer)] "s" "t"
        (some "d") (some "update") (some ["id"]) =
      [spec_drop_staging_command (some "d") "s" "t",
       build_create_table_command
         (bigquery_column_type_mapping [("id", ColumnKind.integer)])
         (([("id", ColumnKind.integer)] : Schema).map Prod.fst)
         ("s" ++ "." ++ ("temp_" ++ "t")) none,
       spec_staging_insert_command [] [("id", ColumnKind.integer)] (some "d") "s" "t",
       spec_merge_command [("id", ColumnKind.integer)] (some "d") "s" "t" ["id"]
         ("update" == UNIQUE_CONFLICT_METHOD_UPDATE),
       spec_drop_staging_command (some "d") "s" "t"] ∧
    "s" ++ "." ++ ("temp_" ++ "t") ≠ spec_full_temp_table_name (some "d") "s" "t" :=
  c9_staging_name_qualification_mismatch [] [] [("id", ColumnKind.integer)]
    "s" "t" "d" "update" ["id"] (by decide) (by decide)

/-- Witness for C10 at a concrete input with the unrecognized method
skip. -/
theorem c10_unrecognized_method_acts_as_ignore_witness :
    build_insert_commands [] [] [("id", ColumnKind.integer)] "s" "t"
        (some "d") (some "skip") (some ["id"]) =
      [spec_drop_staging_command (some "d") "s" "t",
       spec_staging_create_command [("id", ColumnKind.integer)] "s" "t",
       spec_staging_insert_command [] [("id", ColumnKind.integer)] (some "d") "s" "t",
       String.intercalate "\n"
         ["MERGE INTO " ++ spec_full_table_name (some "d") "s" "t" ++ " AS a",
          "USING (SELECT * FROM " ++
            spec_full_temp_table_name (some "d") "s" "t" ++ ") AS b",
          "ON " ++ spec_on_clause ["id"],
          spec_not_matched_line [("id", ColumnKind.integer)]],
       spec_drop_staging_command (some "d") "s" "t"] :=
  c10_unrecognized_method_acts_as_ignore [] [] [("id", ColumnKind.integer)]
    "s" "t" (some "d") "skip" ["id"] (by decide) (by decide) (by decide)
